import Mathlib

/-!
# Twitch proxy function (`netlify/functions/twitch.js`)

A shallow embedding of the serverless handler that proxies Twitch Helix calls,
together with its Redis helper (`netlify/functions/twitch-redis` as required by
the handler).

Conventions of the embedding.

* Module-level variables (`CACHE`, `requestTimestamps`, `APP_TOKEN`,
  `APP_TOKEN_EXPIRY`) and the Redis store form an explicit `State` that every
  call receives and returns.
* `process.env` is the record `Env`.
* Everything a call observes from outside (the readings of `Date.now()`, the
  outcome of the token exchange, the outcome of the Helix request) is the record
  `World`; a theorem quantifying over every `World` covers every behaviour of
  the network and of the clock.
* A JavaScript exception is the `Except.error` branch carrying `err.message`;
  state changes made before the throw are kept, as in the source.
* Every `fetch` that is issued is appended to a log, so that the number of
  upstream calls of a run can be stated.
* Times are `Int` milliseconds. A JSON number is kept as the text that
  `JSON.stringify` prints for it.
* The `require('./twitch-redis')` of line 93 finds no module: the helper file of
  the repository is `twitch.redis.js`. The call throws inside `try`, after the
  pruning of line 90 and before both the Redis path and the in-memory path, so
  lines 96-166 are embedded (`redisPath`, `localPath`) but never run by `handler`.
* The helper `twitch.redis.js` is embedded on its own; the commands it sends to
  Redis are taken to be answered.
* Reading the identifier `cached`, which no scope declares, throws a
  `ReferenceError` whose message is `cached is not defined`.
-/

namespace Twitch

/-! ## JSON values and `JSON.stringify` -/

/-- A JSON value as produced by `resp.json()`. The fields of an object are listed in
the object's own property order. -/
inductive Json where
  | null : Json
  | bool (b : Bool) : Json
  /-- A number, kept as the text `Number::toString` gives for it (`0` for both
  zeros), which is what `JSON.stringify` prints. -/
  | num (text : String) : Json
  | str (s : String) : Json
  | arr (items : List Json) : Json
  | obj (fields : List (String × Json)) : Json
  deriving Repr, Inhabited

/-- JavaScript truthiness of a JSON value. -/
def Json.truthy : Json → Bool
  | .null => false
  | .bool b => b
  | .num text => text != "0"
  | .str s => s != ""
  | .arr _ => true
  | .obj _ => true

/-- A hexadecimal digit, lower case. -/
def hexDigitLower (n : Nat) : Char :=
  if n < 10 then Char.ofNat (48 + n) else Char.ofNat (87 + n)

/-- A hexadecimal digit, upper case. -/
def hexDigitUpper (n : Nat) : Char :=
  if n < 10 then Char.ofNat (48 + n) else Char.ofNat (55 + n)

/-- The escape of one character inside a JSON string literal (`QuoteJSONString`). -/
def quoteChar (c : Char) : List Char :=
  let n := c.toNat
  if n = 34 then [Char.ofNat 92, Char.ofNat 34]
  else if n = 92 then [Char.ofNat 92, Char.ofNat 92]
  else if n = 8 then [Char.ofNat 92, 'b']
  else if n = 12 then [Char.ofNat 92, 'f']
  else if n = 10 then [Char.ofNat 92, 'n']
  else if n = 13 then [Char.ofNat 92, 'r']
  else if n = 9 then [Char.ofNat 92, 't']
  else if n < 32 then
    [Char.ofNat 92, 'u', '0', '0', hexDigitLower (n / 16), hexDigitLower (n % 16)]
  else [c]

/-- The JSON string literal of a string. -/
def quoteJSONString (s : String) : String :=
  String.mk ([Char.ofNat 34] ++ (s.toList.flatMap quoteChar) ++ [Char.ofNat 34])

/-- Decimal rendering of an integer, which is what `Number::toString` gives for an
integer of magnitude below 10^21; it is applied to `Math.floor(t / RATE.windowMs)`
for a reading `t` of `Date.now()`, and to Redis counters. -/
def intToString (n : Int) : String :=
  match n with
  | Int.ofNat k => toString k
  | Int.negSucc k => "-" ++ toString (k + 1)

mutual
/-- The text `JSON.stringify` produces for a JSON value. -/
def JSON.stringify : Json → String
  | .null => "null"
  | .bool true => "true"
  | .bool false => "false"
  | .num text => text
  | .str s => quoteJSONString s
  | .arr items => "[" ++ JSON.stringifyItems items ++ "]"
  | .obj fields => "\x7b" ++ JSON.stringifyFields fields ++ "\x7d"
/-- The comma-separated elements of an array. -/
def JSON.stringifyItems : List Json → String
  | [] => ""
  | [j] => JSON.stringify j
  | j :: k :: rest => JSON.stringify j ++ "," ++ JSON.stringifyItems (k :: rest)
/-- The comma-separated members of an object. -/
def JSON.stringifyFields : List (String × Json) → String
  | [] => ""
  | [(k, j)] => quoteJSONString k ++ ":" ++ JSON.stringify j
  | (k, j) :: f :: rest =>
      quoteJSONString k ++ ":" ++ JSON.stringify j ++ "," ++ JSON.stringifyFields (f :: rest)
end

/-! ## `encodeURIComponent` -/

/-- The UTF-8 bytes of a code point. -/
def utf8Bytes (n : Nat) : List Nat :=
  if n < 128 then [n]
  else if n < 2048 then [192 + n / 64, 128 + n % 64]
  else if n < 65536 then [224 + n / 4096, 128 + (n / 64) % 64, 128 + n % 64]
  else [240 + n / 262144, 128 + (n / 4096) % 64, 128 + (n / 64) % 64, 128 + n % 64]

/-- The characters `encodeURIComponent` leaves alone: ASCII letters, digits and
the marks - _ . ! ~ * ' ( ). -/
def uriUnreserved (c : Char) : Bool :=
  let n := c.toNat
  (65 ≤ n && n ≤ 90) || (97 ≤ n && n ≤ 122) || (48 ≤ n && n ≤ 57) ||
    n == 45 || n == 95 || n == 46 || n == 33 || n == 126 || n == 42 || n == 39 ||
    n == 40 || n == 41

/-- One byte as `%XX`. -/
def percentByte (b : Nat) : List Char :=
  ['%', hexDigitUpper (b / 16), hexDigitUpper (b % 16)]

/-- The encoding of one character. -/
def encodeURIChar (c : Char) : List Char :=
  if uriUnreserved c then [c] else (utf8Bytes c.toNat).flatMap percentByte

/-- The function `encodeURIComponent`: every character outside the unreserved set
is replaced by the percent-encoding of its UTF-8 bytes. -/
def encodeURIComponent (s : String) : String :=
  String.mk (s.toList.flatMap encodeURIChar)

/-! ## Environment, state and the outside world -/

/-- The variables of `process.env` the function reads. -/
structure Env where
  TWITCH_CLIENT_ID : Option String
  TWITCH_CLIENT_SECRET : Option String
  TWITCH_OAUTH : Option String
  REDIS_URL : Option String
  deriving Repr, DecidableEq

/-- JavaScript truthiness of a value that is a string or undefined/null. -/
def truthyStr : Option String → Bool
  | none => false
  | some s => s != ""

/-- The value of a string-or-undefined when it is used as a string; only applied to
truthy values. -/
def strOf : Option String → String
  | none => ""
  | some s => s

/-- An entry of the in-memory `CACHE`: `\x7b data, expiry \x7d`. -/
structure CacheEntry where
  data : Json
  expiry : Int
  deriving Repr

/-- A stored Redis string, represented by what it denotes: the text
`JSON.stringify j`, or the decimal text of a counter. -/
inductive RedisValue where
  | json (j : Json) : RedisValue
  | counter (n : Int) : RedisValue
  deriving Repr

/-- A Redis key's value and its expiry time in ms (none: no expiry). -/
structure RedisEntry where
  value : RedisValue
  expireAt : Option Int
  deriving Repr

/-- The module-level variables of `twitch.js` and of the Redis helper, and the
content of the Redis server. -/
structure State where
  /-- The `Map` `CACHE`, in insertion order. -/
  CACHE : List (String × CacheEntry)
  requestTimestamps : List Int
  APP_TOKEN : Option String
  APP_TOKEN_EXPIRY : Int
  /-- Whether the helper's module variable `redis` holds a client. -/
  redisClient : Bool
  /-- The keys of the Redis server. -/
  redis : List (String × RedisEntry)
  deriving Repr

/-- The state of a freshly loaded module. -/
def State.initial : State :=
  { CACHE := [], requestTimestamps := [], APP_TOKEN := none, APP_TOKEN_EXPIRY := 0,
    redisClient := false, redis := [] }

/-- The constant `RATE.windowMs`. -/
def RATE_windowMs : Int := 60000

/-- The constant `RATE.max`. -/
def RATE_max : Nat := 120

/-- What the token endpoint does with one exchange. -/
inductive TokenFetchOutcome where
  /-- The call `fetch` or `resp.json()` rejects with an error of this message. -/
  | reject (message : String)
  /-- A response with `resp.ok` false and this JSON body. -/
  | notOk (body : Json)
  /-- A response with `resp.ok` true whose body has these two properties. -/
  | ok (access_token : Option String) (expires_in : Option Int)
  deriving Repr

/-- What the Helix endpoint does with one request. -/
inductive FetchOutcome where
  /-- The call `fetch` or `resp.json()` rejects with an error of this message. -/
  | reject (message : String)
  /-- A response with this status and this JSON body. -/
  | response (status : Nat) (json : Json)
  deriving Repr

/-- Everything one call of the handler observes from outside. -/
structure World where
  /-- The reading of `now()` in the expiry test of `getAppToken`. -/
  tokenNow1 : Int
  tokenFetch : TokenFetchOutcome
  /-- The reading of `now()` when `getAppToken` stores the expiry. -/
  tokenNow2 : Int
  /-- The reading `t = now()` of the handler. -/
  t : Int
  dataFetch : FetchOutcome
  /-- The clock of the Redis server during the call. -/
  redisNow : Int
  /-- What the module loader appends to `Cannot find module './twitch-redis'` in the
  message of the error it throws (the require stack). -/
  requireStack : String
  deriving Repr

/-- A call of `fetch` that was issued. -/
inductive FetchCall where
  | tokenExchange (url : String) (body : String) : FetchCall
  | helix (url : String) (headers : List (String × String)) : FetchCall
  deriving Repr, DecidableEq

/-- Whether a logged call is a Helix data request. -/
def FetchCall.isData : FetchCall → Bool
  | .tokenExchange _ _ => false
  | .helix _ _ => true

/-- The number of upstream data calls in a log. -/
def dataCalls (log : List FetchCall) : Nat := (log.filter FetchCall.isData).length

/-- The query parameters the handler reads. -/
structure Query where
  type : Option String
  login : Option String
  user_id : Option String
  broadcaster_id : Option String
  deriving Repr, DecidableEq

/-- The event passed to the handler. -/
structure Event where
  queryStringParameters : Option Query
  deriving Repr, DecidableEq

/-- The object the handler returns. -/
structure Response where
  statusCode : Nat
  headers : List (String × String)
  body : String
  deriving Repr, DecidableEq

/-- The value of a response header. -/
def Response.header (r : Response) (name : String) : Option String :=
  (r.headers.find? (fun h => h.1 == name)).map (fun h => h.2)

/-! ## The Redis helper (`twitch-redis`) -/

/-- Whether a key is still present at server time `rnow`. -/
def RedisEntry.live (e : RedisEntry) (rnow : Int) : Bool :=
  match e.expireAt with
  | none => true
  | some x => rnow < x

/-- The live entry stored at a key. -/
def redisLookup (store : List (String × RedisEntry)) (rnow : Int) (key : String) :
    Option RedisEntry :=
  match store.find? (fun kv => kv.1 == key) with
  | some kv => if kv.2.live rnow then some kv.2 else none
  | none => none

/-- Writes a key, replacing what was stored there. -/
def redisPut (store : List (String × RedisEntry)) (key : String) (e : RedisEntry) :
    List (String × RedisEntry) :=
  (key, e) :: store.filter (fun kv => kv.1 != key)

/-- The helper `getRedis`: the existing client, or a new one when `REDIS_URL` is
set; the result says whether a client is returned. -/
def getRedis (env : Env) (s : State) : Bool × State :=
  if s.redisClient then (true, s)
  else if !truthyStr env.REDIS_URL then (false, s)
  else (true, { s with redisClient := true })

/-- What `JSON.parse` gives for a stored text. The helper only reads keys under
`twitch:cache:`, which hold what `setCached` wrote; the decimal text of a counter
parses to the number of that text. -/
def RedisValue.parse : RedisValue → Json
  | .json j => j
  | .counter n => .num (intToString n)

/-- The integer a stored text denotes for `INCR`: a counter, or a JSON number whose
text is a decimal integer of 64 bits. -/
def RedisValue.asInt : RedisValue → Option Int
  | .counter n => some n
  | .json (.num text) =>
    match text.toInt? with
    | some n =>
      if -9223372036854775808 ≤ n ∧ n ≤ 9223372036854775807 then some n else none
    | none => none
  | .json _ => none

/-- The helper `getCached`: the parsed value at `twitch:cache:<url>`, or null. -/
def getCached (env : Env) (rnow : Int) (s : State) (url : String) : Option Json × State :=
  match getRedis env s with
  | (false, s1) => (none, s1)
  | (true, s1) =>
    match redisLookup s1.redis rnow ("twitch:cache:" ++ url) with
    | some e => (some e.value.parse, s1)
    | none => (none, s1)

/-- The helper `setCached`: `SET twitch:cache:<url> <json> EX ttlSeconds`. -/
def setCached (env : Env) (rnow : Int) (s : State) (url : String) (data : Json)
    (ttlSeconds : Int) : State :=
  match getRedis env s with
  | (false, s1) => s1
  | (true, s1) =>
    let e : RedisEntry := { value := .json data, expireAt := some (rnow + ttlSeconds * 1000) }
    { s1 with redis := redisPut s1.redis ("twitch:cache:" ++ url) e }

/-- The command `INCR`: the new count, or the server's error for a value that is
not an integer. -/
def redisIncr (store : List (String × RedisEntry)) (rnow : Int) (key : String) :
    Except String (Int × List (String × RedisEntry)) :=
  match redisLookup store rnow key with
  | none => .ok (1, redisPut store key { value := .counter 1, expireAt := none })
  | some e =>
    match e.value.asInt with
    | some n =>
      if n ≥ 9223372036854775807 then .error "ERR increment or decrement would overflow"
      else .ok (n + 1, redisPut store key { e with value := .counter (n + 1) })
    | none => .error "ERR value is not an integer or out of range"

/-- The command `EXPIRE key seconds`. -/
def redisExpire (store : List (String × RedisEntry)) (rnow : Int) (key : String)
    (seconds : Int) : List (String × RedisEntry) :=
  match redisLookup store rnow key with
  | none => store
  | some e => redisPut store key { e with expireAt := some (rnow + seconds * 1000) }

/-- The helper `allowRequest(key, windowSec, maxRequests)`. -/
def allowRequest (env : Env) (rnow : Int) (s : State) (key : String) (windowSec : Int)
    (maxRequests : Int) : Except String Bool × State :=
  match getRedis env s with
  | (false, s1) => (.ok true, s1)
  | (true, s1) =>
    match redisIncr s1.redis rnow key with
    | .error msg => (.error msg, s1)
    | .ok (count, store1) =>
      let store2 := if count = 1 then redisExpire store1 rnow key windowSec else store1
      (.ok (decide (count ≤ maxRequests)), { s1 with redis := store2 })

/-! ## Token management -/

/-- The function `fetchAppAccessToken`: the request that is sent, and the parsed
body or the thrown error. -/
def fetchAppAccessToken (clientId clientSecret : String) (w : World) :
    Except String (Option String × Option Int) × FetchCall :=
  let url := "https://id.twitch.tv/oauth2/token"
  let body := "client_id=" ++ encodeURIComponent clientId ++ "&client_secret=" ++
    encodeURIComponent clientSecret ++ "&grant_type=client_credentials"
  let call := FetchCall.tokenExchange url body
  match w.tokenFetch with
  | .reject msg => (.error msg, call)
  | .notOk json => (.error ("token endpoint error: " ++ JSON.stringify json), call)
  | .ok access_token expires_in => (.ok (access_token, expires_in), call)

/-- The lifetime in ms that `getAppToken` adds to `now()`:
`j.expires_in ? (j.expires_in - 30) * 1000 : 50 * 60 * 1000`. -/
def tokenLifetimeMs (expires_in : Option Int) : Int :=
  match expires_in with
  | some e => if e ≠ 0 then (e - 30) * 1000 else 50 * 60 * 1000
  | none => 50 * 60 * 1000

/-- The function `getAppToken`: the token (null when the client credentials are
missing) or the thrown error, the new state, and the calls issued. -/
def getAppToken (env : Env) (w : World) (s : State) :
    Except String (Option String) × State × List FetchCall :=
  if !truthyStr env.TWITCH_CLIENT_ID || !truthyStr env.TWITCH_CLIENT_SECRET then
    (.ok none, s, [])
  else if truthyStr s.APP_TOKEN && decide (s.APP_TOKEN_EXPIRY > w.tokenNow1) then
    (.ok s.APP_TOKEN, s, [])
  else
    match fetchAppAccessToken (strOf env.TWITCH_CLIENT_ID) (strOf env.TWITCH_CLIENT_SECRET) w with
    | (.error msg, call) => (.error msg, s, [call])
    | (.ok (access_token, expires_in), call) =>
      (.ok access_token,
       { s with APP_TOKEN := access_token,
                APP_TOKEN_EXPIRY := w.tokenNow2 + tokenLifetimeMs expires_in },
       [call])

/-- The class `\s` of a JavaScript regular expression. -/
def isJsSpace (c : Char) : Bool :=
  let n := c.toNat
  (9 ≤ n && n ≤ 13) || n == 32 || n == 160 || n == 5760 || (8192 ≤ n && n ≤ 8202) ||
    n == 8232 || n == 8233 || n == 8239 || n == 8287 || n == 12288 || n == 65279

/-- The ASCII lower-case form of a character. -/
def asciiLower (c : Char) : Char :=
  if 65 ≤ c.toNat ∧ c.toNat ≤ 90 then Char.ofNat (c.toNat + 32) else c

/-- The expression `s.replace(/^Bearer\s+/i, '')`. -/
def stripBearer (s : String) : String :=
  let cs := s.toList
  if (cs.take 6).map asciiLower = ['b', 'e', 'a', 'r', 'e', 'r'] then
    let rest := cs.drop 6
    match rest with
    | [] => s
    | c :: _ => if isJsSpace c then String.mk (rest.dropWhile isJsSpace) else s
  else s

/-! ## The handler -/

/-- What runs inside `try`: a returned response or a thrown error message. -/
abbrev Attempt := Except String Response × State × List FetchCall

/-- The result of one call of the handler. -/
structure Outcome where
  response : Response
  state : State
  fetches : List FetchCall
  deriving Repr

/-- A response without headers whose body is `\x7b error: message \x7d`. -/
def errorResponse (status : Nat) (message : String) : Response :=
  { statusCode := status, headers := [],
    body := JSON.stringify (.obj [("error", .str message)]) }

/-- The message of the `ReferenceError` thrown when the undeclared identifier
`cached` is read. -/
def cachedNotDefined : String := "cached is not defined"

/-- Lines 67-86: the parameter checks, the upstream URL and `cacheTTL` in seconds. -/
def route (q : Query) : Except Response (String × Int) :=
  if q.type = some "user" then
    if !truthyStr q.login then .error (errorResponse 400 "missing login")
    else .ok ("https://api.twitch.tv/helix/users?login=" ++
      encodeURIComponent (strOf q.login), 60 * 60)
  else if q.type = some "videos" then
    if !truthyStr q.user_id then .error (errorResponse 400 "missing user_id")
    else .ok ("https://api.twitch.tv/helix/videos?user_id=" ++
      encodeURIComponent (strOf q.user_id) ++ "&first=6&type=archive", 60 * 5)
  else if q.type = some "clips" then
    if !truthyStr q.broadcaster_id then .error (errorResponse 400 "missing broadcaster_id")
    else .ok ("https://api.twitch.tv/helix/clips?broadcaster_id=" ++
      encodeURIComponent (strOf q.broadcaster_id) ++ "&first=6", 60 * 5)
  else .error (errorResponse 400 "missing or invalid type parameter")

/-- The method `Map.prototype.set`: an existing key keeps its place. -/
def mapSet (m : List (String × CacheEntry)) (key : String) (v : CacheEntry) :
    List (String × CacheEntry) :=
  match m with
  | [] => [(key, v)]
  | (k, x) :: rest => if k = key then (k, v) :: rest else (k, x) :: mapSet rest key v

/-- Lines 48-53: the authorization token. -/
def obtainToken (env : Env) (w : World) (s : State) :
    Except String (Option String) × State × List FetchCall :=
  if truthyStr env.TWITCH_CLIENT_SECRET then getAppToken env w s
  else if truthyStr env.TWITCH_OAUTH then (.ok (some (stripBearer (strOf env.TWITCH_OAUTH))), s, [])
  else (.ok none, s, [])

/-- The headers of the Helix request. -/
def helixHeaders (clientId token : String) : List (String × String) :=
  [("Client-ID", clientId), ("Authorization", "Bearer " ++ token)]

/-- Line 104: the key of the rate-limit bucket,
`twitch:rl:<Math.floor(t / RATE.windowMs)>:<type>`. -/
def rlKey (t : Int) (type : String) : String :=
  "twitch:rl:" ++ intToString (Int.fdiv t RATE_windowMs) ++ ":" ++ type

/-- Line 93: `require('./twitch-redis')`. No file of the repository has that name
(the helper is `twitch.redis.js`), so the call throws. -/
def requireTwitchRedis (w : World) : Except String Unit :=
  .error ("Cannot find module './twitch-redis'" ++ w.requireStack)

/-- Lines 96-127: the Redis-backed path. -/
def redisPath (env : Env) (w : World) (s : State) (type : String) (url : String)
    (cacheTTL : Int) (headers : List (String × String)) (log : List FetchCall) : Attempt :=
  match getCached env w.redisNow s url with
  | (cachedRedis, s1) =>
    if (cachedRedis.map Json.truthy).getD false then
      (.ok { statusCode := 200, headers := [("X-Cache", "HIT-REDIS")],
             body := JSON.stringify (cachedRedis.getD .null) }, s1, log)
    else
      match allowRequest env w.redisNow s1 (rlKey w.t type) (Int.fdiv RATE_windowMs 1000)
          RATE_max with
      | (.error msg, s2) => (.error msg, s2, log)
      | (.ok false, s2) =>
        (.ok (errorResponse 429 "rate limited - try again later"), s2, log)
      | (.ok true, s2) =>
        let s3 := { s2 with requestTimestamps := s2.requestTimestamps ++ [w.t] }
        let log1 := log ++ [FetchCall.helix url headers]
        match w.dataFetch with
        | .reject msg => (.error msg, s3, log1)
        | .response status json =>
          if status ≥ 400 then
            (.ok { statusCode := status, headers := [], body := JSON.stringify json }, s3, log1)
          else
            (.ok { statusCode := 200, headers := [("X-Cache", "MISS-REDIS")],
                   body := JSON.stringify json },
             setCached env w.redisNow s3 url json cacheTTL, log1)

/-- Lines 129-166: the in-memory path. Both tests of `cached` read an identifier
that is declared nowhere, which throws. -/
def localPath (w : World) (s : State) (url : String) (cacheTTL : Int)
    (headers : List (String × String)) (log : List FetchCall) : Attempt :=
  if s.requestTimestamps.length ≥ RATE_max then (.error cachedNotDefined, s, log)
  else
    let s1 := { s with requestTimestamps := s.requestTimestamps ++ [w.t] }
    let log1 := log ++ [FetchCall.helix url headers]
    match w.dataFetch with
    | .reject msg => (.error msg, s1, log1)
    | .response status json =>
      if status ≥ 400 then (.error cachedNotDefined, s1, log1)
      else
        (.ok { statusCode := 200, headers := [("X-Cache", "MISS")],
               body := JSON.stringify json },
         { s1 with CACHE := mapSet s1.CACHE url { data := json, expiry := w.t + cacheTTL * 1000 } },
         log1)

/-- Line 41: `event.queryStringParameters || \x7b\x7d`. -/
def Event.query (event : Event) : Query :=
  event.queryStringParameters.getD
    { type := none, login := none, user_id := none, broadcaster_id := none }

/-- Lines 40-166: the body of `try`. Line 93 throws, so a call that passes the
credentials test and the parameter checks ends there, with the timestamps pruned. -/
def handlerTry (env : Env) (w : World) (s : State) (event : Event) : Attempt :=
  let q : Query := event.query
  match obtainToken env w s with
  | (.error msg, s1, log) => (.error msg, s1, log)
  | (.ok token, s1, log) =>
    if !truthyStr env.TWITCH_CLIENT_ID || !truthyStr token then
      (.ok (errorResponse 500 "Twitch credentials not configured on server"), s1, log)
    else
      match route q with
      | .error resp => (.ok resp, s1, log)
      | .ok (url, cacheTTL) =>
        let headers := helixHeaders (strOf env.TWITCH_CLIENT_ID) (strOf token)
        let s2 := { s1 with
          requestTimestamps := s1.requestTimestamps.filter (fun ts => w.t - ts < RATE_windowMs) }
        match requireTwitchRedis w with
        | .error msg => (.error msg, s2, log)
        | .ok _ =>
          if truthyStr env.REDIS_URL then
            match getRedis env s2 with
            | (_, s3) => redisPath env w s3 (strOf q.type) url cacheTTL headers log
          else localPath w s2 url cacheTTL headers log

/-- Lines 167-190: the `catch` block, which serves the first value of `CACHE` if
there is one. -/
def handlerCatch (message : String) (s : State) : Response :=
  match s.CACHE.head? with
  | some (_, cachedAny) =>
    { statusCode := 200, headers := [("X-Cache", "HIT"), ("X-Error", "true")],
      body := JSON.stringify cachedAny.data }
  | none => errorResponse 500 message

/-- The exported `handler`. -/
def handler (env : Env) (w : World) (s : State) (event : Event) : Outcome :=
  match handlerTry env w s event with
  | (.ok resp, s1, log) => { response := resp, state := s1, fetches := log }
  | (.error msg, s1, log) => { response := handlerCatch msg s1, state := s1, fetches := log }

/-! ## Sample inputs -/

/-- The environment of the unit tests: client id and a static bearer credential. -/
def envLegacy : Env :=
  { TWITCH_CLIENT_ID := some "testid", TWITCH_CLIENT_SECRET := none,
    TWITCH_OAUTH := some "Bearer testtoken", REDIS_URL := none }

/-- The environment of the client-credentials test: client id and client secret. -/
def envSecret : Env :=
  { TWITCH_CLIENT_ID := some "testid", TWITCH_CLIENT_SECRET := some "secret",
    TWITCH_OAUTH := none, REDIS_URL := none }

/-- The request `?type=user&login=cannabisusers`. -/
def evUser : Event :=
  { queryStringParameters := some
      { type := some "user", login := some "cannabisusers", user_id := none,
        broadcaster_id := none } }

/-- The request `?type=videos&user_id=123`. -/
def evVideos : Event :=
  { queryStringParameters := some
      { type := some "videos", login := none, user_id := some "123",
        broadcaster_id := none } }

/-- The payload of the unit tests: an object whose `data` holds one user `u1`. -/
def fakeUser : Json := .obj [("data", .arr [.obj [("id", .str "u1")]])]

/-- The require stack of a deployed function. -/
def sampleRequireStack : String :=
  "\nRequire stack:\n- /var/task/netlify/functions/twitch.js"

/-- A world in which the handler reads the clock as `t` and the Helix endpoint
behaves as `d`; the token endpoint, if asked, answers `apptoken` for 3600 s. -/
def worldAt (t : Int) (d : FetchOutcome) : World :=
  { tokenNow1 := t, tokenFetch := .ok (some "apptoken") (some 3600), tokenNow2 := t, t := t,
    dataFetch := d, redisNow := t, requireStack := sampleRequireStack }

/-- The canonical upstream URL of `evUser`. -/
def urlUser : String := "https://api.twitch.tv/helix/users?login=cannabisusers"

/-- The request `?type=user` without `login`. -/
def evUserNoLogin : Event :=
  { queryStringParameters := some
      { type := some "user", login := none, user_id := none, broadcaster_id := none } }

/-- An environment without any credential. -/
def envNone : Env :=
  { TWITCH_CLIENT_ID := none, TWITCH_CLIENT_SECRET := none, TWITCH_OAUTH := none,
    REDIS_URL := none }

/-- A state whose `CACHE` holds only the entry of `evUser`, stored at time 1000. -/
def stateUserCached : State :=
  { State.initial with
    CACHE := [(urlUser, { data := fakeUser, expiry := 3601000 })],
    requestTimestamps := [1000] }

/-- The request `?type=clips&broadcaster_id=b/1`. -/
def evClips : Event :=
  { queryStringParameters := some
      { type := some "clips", login := none, user_id := none,
        broadcaster_id := some "b/1" } }

/-- An upstream error body. -/
def upstreamError : Json := .obj [("error", .str "Not Found"), ("status", .num "404")]

/-- The state after `n` calls for `evVideos` made at times 1000, 1001, ... in Local
mode, in a world whose upstream answers every request with status 500. -/
def failingCalls : Nat → State → State
  | 0, s => s
  | n + 1, s =>
    (handler envLegacy (worldAt (1000 + n) (.response 500 upstreamError)) (failingCalls n s)
      evVideos).state

/-- A world for `getAppToken`: both clock readings are `t` and the token endpoint
behaves as `o`. -/
def tokenWorld (t : Int) (o : TokenFetchOutcome) : World :=
  { tokenNow1 := t, tokenFetch := o, tokenNow2 := t, t := t, dataFetch := .reject "unused",
    redisNow := t, requireStack := sampleRequireStack }

/-! ## Predicates used to state the properties -/

/-- The token the handler holds after lines 48-53 (null when the step throws). -/
def tokenOf (env : Env) (w : World) (s : State) : Option String :=
  match (obtainToken env w s).1 with
  | .ok token => token
  | .error _ => none

/-- The handler passes the credentials test of line 55: the client id is set and
the token step has produced a non-empty token. -/
def credentialsReady (env : Env) (w : World) (s : State) : Bool :=
  truthyStr env.TWITCH_CLIENT_ID && truthyStr (tokenOf env w s)

/-- The state after the token step. -/
def stateAfterToken (env : Env) (w : World) (s : State) : State := (obtainToken env w s).2.1

/-- The calls issued by the token step. -/
def tokenCalls (env : Env) (w : World) (s : State) : List FetchCall := (obtainToken env w s).2.2

/-- A supported kind together with its non-empty required parameter. -/
def validQuery (q : Query) : Bool :=
  (q.type == some "user" && truthyStr q.login) ||
  (q.type == some "videos" && truthyStr q.user_id) ||
  (q.type == some "clips" && truthyStr q.broadcaster_id)

/-- The timestamps that survive the pruning of line 90 at time `t`. -/
def pruned (t : Int) (ts : List Int) : List Int := ts.filter (fun x => t - x < RATE_windowMs)

/-- The state at line 93: the token step done and the timestamps pruned. -/
def stateAtLocal (env : Env) (w : World) (s : State) : State :=
  { stateAfterToken env w s with
    requestTimestamps :=
      (stateAfterToken env w s).requestTimestamps.filter (fun ts => w.t - ts < RATE_windowMs) }

/-! ## The states the module can be in -/

/-- The states the module can be in: the state of a freshly loaded module, the
state after a call of the handler made in such a state, in any environment and
world and for any event, and such a state with another content of the Redis
server. -/
inductive Reachable : State → Prop where
  | initial : Reachable State.initial
  | call (env : Env) (w : World) (s : State) (ev : Event) :
      Reachable s → Reachable (handler env w s ev).state
  /-- Another client of the Redis server changes its content. -/
  | store (s : State) (content : List (String × RedisEntry)) :
      Reachable s → Reachable { s with redis := content }

/-! ## The rate-limit bucket in Redis -/

/-- The entry stored at a key, expired or not. -/
def redisRaw (store : List (String × RedisEntry)) (key : String) : Option RedisEntry :=
  (store.find? (fun kv => kv.1 == key)).map (fun kv => kv.2)

/-- The count `INCR` starts from at server time `rnow`: 0 for an absent or expired
key, the stored integer otherwise (none when the stored text is no integer). -/
def bucketValue (store : List (String × RedisEntry)) (rnow : Int) (key : String) :
    Option Int :=
  match redisLookup store rnow key with
  | none => some 0
  | some e => e.value.asInt

/-- The results of successive calls `allowRequest(key, windowSec, maxRequests)` made
at the server times of the list, and the state after them. -/
def allowSeq (env : Env) (key : String) (windowSec maxRequests : Int) :
    State → List Int → List (Except String Bool) × State
  | s, [] => ([], s)
  | s, r :: rest =>
    ((allowRequest env r s key windowSec maxRequests).1 ::
      (allowSeq env key windowSec maxRequests
        (allowRequest env r s key windowSec maxRequests).2 rest).1,
     (allowSeq env key windowSec maxRequests
        (allowRequest env r s key windowSec maxRequests).2 rest).2)

/-- An environment with client credentials and a Redis URL. -/
def envRedis : Env :=
  { TWITCH_CLIENT_ID := some "testid", TWITCH_CLIENT_SECRET := some "secret",
    TWITCH_OAUTH := none, REDIS_URL := some "redis://localhost:6379" }

/-! ## Checks of the embedding on concrete values -/

example : JSON.stringify (.obj [("data", .arr [.obj [("id", .str "u1")]])]) =
    "\x7b\"data\":[\x7b\"id\":\"u1\"\x7d]\x7d" := by rfl

example : JSON.stringify (.obj [("error", .str "missing login")]) =
    "\x7b\"error\":\"missing login\"\x7d" := by decide

example : encodeURIComponent "cannabisusers" = "cannabisusers" := by decide

example : encodeURIComponent "a b&c=é" = "a%20b%26c%3D%C3%A9" := by decide

example : stripBearer "Bearer testtoken" = "testtoken" := by decide

example : stripBearer "bearer \t x y" = "x y" := by decide

example : stripBearer "Bearertoken" = "Bearertoken" := by decide

example : stripBearer "abc" = "abc" := by decide


/-! ## General facts about the embedding -/

theorem getAppToken_frame (env : Env) (w : World) (s : State) :
    (getAppToken env w s).2.1.CACHE = s.CACHE ∧
    (getAppToken env w s).2.1.requestTimestamps = s.requestTimestamps ∧
    dataCalls (getAppToken env w s).2.2 = 0 := by
  unfold getAppToken fetchAppAccessToken
  split_ifs
  · simp [dataCalls]
  · simp [dataCalls]
  · cases w.tokenFetch <;> simp [dataCalls, FetchCall.isData]

theorem obtainToken_frame (env : Env) (w : World) (s : State) :
    (obtainToken env w s).2.1.CACHE = s.CACHE ∧
    (obtainToken env w s).2.1.requestTimestamps = s.requestTimestamps ∧
    dataCalls (obtainToken env w s).2.2 = 0 := by
  unfold obtainToken
  split_ifs
  · exact getAppToken_frame env w s
  · simp [dataCalls]
  · simp [dataCalls]

theorem obtainToken_of_ready (env : Env) (w : World) (s : State)
    (h : credentialsReady env w s = true) :
    truthyStr env.TWITCH_CLIENT_ID = true ∧ truthyStr (tokenOf env w s) = true ∧
    obtainToken env w s = (.ok (tokenOf env w s), stateAfterToken env w s, tokenCalls env w s) := by
  unfold credentialsReady at h
  simp only [Bool.and_eq_true] at h
  refine ⟨h.1, h.2, ?_⟩
  have h2 := h.2
  unfold tokenOf at h2 ⊢
  unfold stateAfterToken tokenCalls
  rcases hO : obtainToken env w s with ⟨r, s1, log⟩
  rw [hO] at h2
  cases r with
  | error msg => simp [truthyStr] at h2
  | ok t => rfl

/-- The message of the error thrown at line 93. -/
theorem requireTwitchRedis_throws (w : World) :
    requireTwitchRedis w = .error ("Cannot find module './twitch-redis'" ++ w.requireStack) :=
  rfl

/-- With the credentials test passed, the body of `try` ends either at a failed
parameter check or at the `require` of line 93, which throws after the pruning. -/
theorem handlerTry_of_ready (env : Env) (w : World) (s : State) (ev : Event)
    (h : credentialsReady env w s = true) :
    handlerTry env w s ev =
      match route ev.query with
      | .error resp => (.ok resp, stateAfterToken env w s, tokenCalls env w s)
      | .ok _ =>
        (.error ("Cannot find module './twitch-redis'" ++ w.requireStack),
         stateAtLocal env w s, tokenCalls env w s) := by
  obtain ⟨hId, hT, hO⟩ := obtainToken_of_ready env w s h
  unfold handlerTry
  simp only [hO, hId, hT, Bool.not_true, Bool.or_self, Bool.false_eq_true, if_false]
  cases hr : route ev.query with
  | error resp => rfl
  | ok p => rfl

theorem route_of_valid (q : Query) (h : validQuery q = true) :
    ∃ url ttl, route q = .ok (url, ttl) := by
  unfold validQuery at h
  simp only [Bool.or_eq_true, Bool.and_eq_true, beq_iff_eq] at h
  unfold route
  rcases h with (⟨h1, h2⟩ | ⟨h1, h2⟩) | ⟨h1, h2⟩
  · simp [h1, h2]
  · simp [h1, h2]
  · simp [h1, h2]

theorem stateAtLocal_CACHE (env : Env) (w : World) (s : State) :
    (stateAtLocal env w s).CACHE = s.CACHE :=
  (obtainToken_frame env w s).1

theorem stateAtLocal_timestamps (env : Env) (w : World) (s : State) :
    (stateAtLocal env w s).requestTimestamps = pruned w.t s.requestTimestamps := by
  unfold stateAtLocal pruned stateAfterToken
  simp only
  rw [(obtainToken_frame env w s).2.1]

/-- A call that passes the credentials test and the parameter checks throws at
line 93: the response is that of the `catch` block, the timestamps are pruned and
nothing else changes, and the only calls issued are those of the token step. -/
theorem handler_valid_throws (env : Env) (w : World) (s : State) (ev : Event)
    (hCred : credentialsReady env w s = true) (hValid : validQuery ev.query = true) :
    handler env w s ev =
      { response := handlerCatch ("Cannot find module './twitch-redis'" ++ w.requireStack) s,
        state := stateAtLocal env w s,
        fetches := tokenCalls env w s } := by
  obtain ⟨url, ttl, hr⟩ := route_of_valid ev.query hValid
  unfold handler
  rw [handlerTry_of_ready env w s ev hCred, hr]
  simp only
  unfold handlerCatch
  rw [stateAtLocal_CACHE]

/-- With the credentials test passed, a request that fails the parameter checks
gets the response of the failed check; the state and the calls are those of the
token step. -/
theorem handler_invalid (env : Env) (w : World) (s : State) (ev : Event) (resp : Response)
    (hCred : credentialsReady env w s = true) (hr : route ev.query = .error resp) :
    handler env w s ev =
      { response := resp, state := stateAfterToken env w s, fetches := tokenCalls env w s } := by
  unfold handler
  rw [handlerTry_of_ready env w s ev hCred, hr]

/-- The request `fetchAppAccessToken` sends for the configured credentials. -/
theorem fetchAppAccessToken_call (clientId clientSecret : String) (w : World) :
    (fetchAppAccessToken clientId clientSecret w).2 =
      FetchCall.tokenExchange "https://id.twitch.tv/oauth2/token"
        ("client_id=" ++ encodeURIComponent clientId ++ "&client_secret=" ++
          encodeURIComponent clientSecret ++ "&grant_type=client_credentials") := by
  unfold fetchAppAccessToken
  cases w.tokenFetch <;> rfl

/-- When an exchange is due, `getAppToken` is determined by the outcome of
`fetchAppAccessToken`. -/
theorem getAppToken_of_due (env : Env) (w : World) (s : State)
    (hId : truthyStr env.TWITCH_CLIENT_ID = true)
    (hSec : truthyStr env.TWITCH_CLIENT_SECRET = true)
    (hDue : ¬ (truthyStr s.APP_TOKEN = true ∧ s.APP_TOKEN_EXPIRY > w.tokenNow1)) :
    getAppToken env w s =
      match fetchAppAccessToken (strOf env.TWITCH_CLIENT_ID) (strOf env.TWITCH_CLIENT_SECRET) w with
      | (.error msg, call) => (.error msg, s, [call])
      | (.ok (access_token, expires_in), call) =>
        (.ok access_token,
         { s with APP_TOKEN := access_token,
                  APP_TOKEN_EXPIRY := w.tokenNow2 + tokenLifetimeMs expires_in },
         [call]) := by
  unfold getAppToken
  have h2 : ¬ ((truthyStr s.APP_TOKEN && decide (s.APP_TOKEN_EXPIRY > w.tokenNow1)) = true) := by
    simpa using hDue
  simp only [hId, hSec, Bool.not_true, Bool.or_self, Bool.false_eq_true, if_false, h2]

/-- A call that does not pass the credentials test ends with the state and the
calls of the token step. -/
theorem handler_not_ready (env : Env) (w : World) (s : State) (ev : Event)
    (h : credentialsReady env w s = false) :
    (handler env w s ev).state = stateAfterToken env w s ∧
    (handler env w s ev).fetches = tokenCalls env w s := by
  unfold credentialsReady tokenOf at h
  unfold handler handlerTry stateAfterToken tokenCalls
  rcases hO : obtainToken env w s with ⟨r, s1, log⟩
  rw [hO] at h
  cases r with
  | error msg => exact ⟨rfl, rfl⟩
  | ok token =>
    simp only at h
    have hc : (!truthyStr env.TWITCH_CLIENT_ID || !truthyStr token) = true := by
      cases h1 : truthyStr env.TWITCH_CLIENT_ID <;> cases h2 : truthyStr token <;>
        simp [h1, h2] at h ⊢
    simp only [hc, if_true]
    exact ⟨trivial, trivial⟩

/-- A call whose parameter check fails, or whose credentials test fails, ends
before line 90. -/
theorem handler_early (env : Env) (w : World) (s : State) (ev : Event)
    (h : credentialsReady env w s = false ∨ validQuery ev.query = false) :
    (handler env w s ev).state = stateAfterToken env w s ∧
    (handler env w s ev).fetches = tokenCalls env w s := by
  by_cases hCred : credentialsReady env w s = true
  · have hv : validQuery ev.query = false := by
      rcases h with h | h
      · rw [h] at hCred; exact absurd hCred (by decide)
      · exact h
    have hr : ∃ resp, route ev.query = .error resp := by
      unfold validQuery at hv
      unfold route
      by_cases h1 : ev.query.type = some "user"
      · have : truthyStr ev.query.login = false := by simpa [h1] using hv
        exact ⟨errorResponse 400 "missing login", by simp [h1, this]⟩
      · by_cases h2 : ev.query.type = some "videos"
        · have : truthyStr ev.query.user_id = false := by simpa [h2] using hv
          exact ⟨errorResponse 400 "missing user_id", by simp [h2, this]⟩
        · by_cases h3 : ev.query.type = some "clips"
          · have : truthyStr ev.query.broadcaster_id = false := by simpa [h3] using hv
            exact ⟨errorResponse 400 "missing broadcaster_id", by simp [h3, this]⟩
          · exact ⟨errorResponse 400 "missing or invalid type parameter", by simp [h1, h2, h3]⟩
    obtain ⟨resp, hr⟩ := hr
    rw [handler_invalid env w s ev resp hCred hr]
    exact ⟨rfl, rfl⟩
  · have hn : credentialsReady env w s = false := by
      cases hc : credentialsReady env w s
      · rfl
      · exact absurd hc hCred
    exact handler_not_ready env w s ev hn

/-- Whatever the environment, the world, the state and the event: a call leaves
`CACHE` as it was, leaves `requestTimestamps` as it was or pruned, and issues no
Helix request. -/
theorem handler_frame (env : Env) (w : World) (s : State) (ev : Event) :
    (handler env w s ev).state.CACHE = s.CACHE ∧
    ((handler env w s ev).state.requestTimestamps = s.requestTimestamps ∨
      (handler env w s ev).state.requestTimestamps = pruned w.t s.requestTimestamps) ∧
    dataCalls (handler env w s ev).fetches = 0 := by
  have hf := obtainToken_frame env w s
  by_cases hCred : credentialsReady env w s = true
  · by_cases hValid : validQuery ev.query = true
    · rw [handler_valid_throws env w s ev hCred hValid]
      exact ⟨stateAtLocal_CACHE env w s, Or.inr (stateAtLocal_timestamps env w s), hf.2.2⟩
    · have hv : validQuery ev.query = false := by
        cases hc : validQuery ev.query
        · rfl
        · exact absurd hc hValid
      obtain ⟨h1, h2⟩ := handler_early env w s ev (Or.inr hv)
      rw [h1, h2]
      exact ⟨hf.1, Or.inl hf.2.1, hf.2.2⟩
  · have hn : credentialsReady env w s = false := by
      cases hc : credentialsReady env w s
      · rfl
      · exact absurd hc hCred
    obtain ⟨h1, h2⟩ := handler_early env w s ev (Or.inl hn)
    rw [h1, h2]
    exact ⟨hf.1, Or.inl hf.2.1, hf.2.2⟩

/-- In every state the module can be in, `CACHE` is empty and no timestamp is
recorded: the only `CACHE.set` (line 160) and the only pushes (lines 115, 143) lie
behind the `require` of line 93. -/
theorem reachable_empty (s : State) (h : Reachable s) :
    s.CACHE = [] ∧ s.requestTimestamps = [] := by
  induction h with
  | initial => exact ⟨rfl, rfl⟩
  | call env w s ev _ ih =>
    obtain ⟨h1, h2, _⟩ := handler_frame env w s ev
    refine ⟨by rw [h1, ih.1], ?_⟩
    rcases h2 with h2 | h2
    · rw [h2, ih.2]
    · rw [h2, ih.2]; rfl
  | store s content _ ih => exact ih

/-- The in-memory path of lines 129-166, taken by itself, never reads `CACHE`:
with room in the budget it issues a Helix request whatever `CACHE` holds. -/
theorem localPath_with_room (w : World) (s : State) (url : String) (ttl : Int)
    (headers : List (String × String)) (log : List FetchCall)
    (h : s.requestTimestamps.length < RATE_max) :
    (localPath w s url ttl headers log).2.2 = log ++ [FetchCall.helix url headers] := by
  unfold localPath
  have hlen : ¬ s.requestTimestamps.length ≥ RATE_max := by omega
  simp only [hlen, if_false]
  cases w.dataFetch with
  | reject msg => rfl
  | response status json =>
    by_cases hs : status ≥ 400
    · simp [hs]
    · simp [hs]

/-- The routing table of lines 67-86, for every non-empty parameter value. -/
theorem route_table (q : Query) (v : String) (hv : v ≠ "") :
    (q.type = some "user" → q.login = some v →
      route q = .ok ("https://api.twitch.tv/helix/users?login=" ++ encodeURIComponent v,
        3600)) ∧
    (q.type = some "videos" → q.user_id = some v →
      route q = .ok ("https://api.twitch.tv/helix/videos?user_id=" ++ encodeURIComponent v ++
        "&first=6&type=archive", 300)) ∧
    (q.type = some "clips" → q.broadcaster_id = some v →
      route q = .ok ("https://api.twitch.tv/helix/clips?broadcaster_id=" ++
        encodeURIComponent v ++ "&first=6", 300)) := by
  have hvt : truthyStr (some v) = true := by simp [truthyStr, hv]
  unfold route
  refine ⟨?_, ?_, ?_⟩
  · intro h1 h2
    simp [h1, h2, hvt, strOf]
  · intro h1 h2
    simp [h1, h2, hvt, strOf]
  · intro h1 h2
    simp [h1, h2, hvt, strOf]

theorem getRedis_redis (env : Env) (s : State) : (getRedis env s).2.redis = s.redis := by
  unfold getRedis
  split_ifs <;> rfl

/-- Once `getRedis` has returned a client it keeps returning one. -/
theorem getRedis_stable (env : Env) (s : State) (h : (getRedis env s).1 = true) :
    (getRedis env s).2.redisClient = true := by
  unfold getRedis at h ⊢
  by_cases h1 : s.redisClient = true
  · simp [h1]
  · by_cases h2 : (!truthyStr env.REDIS_URL) = true
    · simp [h1, h2] at h
    · simp [h1, h2]

theorem getRedis_of_client (env : Env) (s : State) (h : s.redisClient = true) :
    getRedis env s = (true, s) := by
  unfold getRedis
  simp [h]

theorem redisLookup_eq (store : List (String × RedisEntry)) (rnow : Int) (key : String) :
    redisLookup store rnow key =
      (redisRaw store key).bind (fun e => if e.live rnow then some e else none) := by
  unfold redisLookup redisRaw
  cases store.find? (fun kv => kv.1 == key) <;> rfl

theorem redisLookup_live (store : List (String × RedisEntry)) (rnow : Int) (key : String)
    (e : RedisEntry) (h : redisLookup store rnow key = some e) : e.live rnow = true := by
  unfold redisLookup at h
  cases hf : store.find? (fun kv => kv.1 == key) with
  | none => simp [hf] at h
  | some kv =>
    simp only [hf] at h
    by_cases hl : kv.2.live rnow = true
    · simp only [hl, if_true, Option.some.injEq] at h
      rw [← h]; exact hl
    · simp [hl] at h

theorem redisRaw_put_same (store : List (String × RedisEntry)) (key : String)
    (e : RedisEntry) : redisRaw (redisPut store key e) key = some e := by
  unfold redisRaw redisPut
  simp

theorem find_filter_other (store : List (String × RedisEntry)) (key k : String)
    (h : k ≠ key) :
    List.find? (fun kv => kv.1 == k) (store.filter (fun kv => kv.1 != key)) =
      List.find? (fun kv => kv.1 == k) store := by
  induction store with
  | nil => rfl
  | cons kv rest ih =>
    by_cases hk : kv.1 = key
    · have h2 : (kv.1 == k) = false := by
        simp only [beq_eq_false_iff_ne, ne_eq]
        rw [hk]; exact fun h3 => h h3.symm
      have h3 : (kv.1 != key) = false := by simp [hk]
      simp only [List.filter_cons, h3, Bool.false_eq_true, if_false, List.find?_cons, h2]
      exact ih
    · have h3 : (kv.1 != key) = true := by simpa using hk
      simp only [List.filter_cons, h3, if_true, List.find?_cons]
      cases hkk : (kv.1 == k)
      · exact ih
      · rfl

theorem redisRaw_put_other (store : List (String × RedisEntry)) (key k : String)
    (e : RedisEntry) (h : k ≠ key) : redisRaw (redisPut store key e) k = redisRaw store k := by
  unfold redisRaw redisPut
  have h1 : (key == k) = false := by
    simp only [beq_eq_false_iff_ne, ne_eq]
    exact fun h2 => h h2.symm
  simp only [List.find?_cons, h1]
  rw [find_filter_other store key k h]

theorem redisLookup_put_same (store : List (String × RedisEntry)) (rnow : Int)
    (key : String) (e : RedisEntry) (h : e.live rnow = true) :
    redisLookup (redisPut store key e) rnow key = some e := by
  rw [redisLookup_eq, redisRaw_put_same]
  simp [h]

/-- The command `INCR` on a key whose live value is the integer `c` (0 for an
absent key), below the 64-bit limit: the count becomes `c + 1` and the expiry
stays what it was. -/
theorem redisIncr_of_value (store : List (String × RedisEntry)) (rnow : Int) (key : String)
    (c : Int) (hc : bucketValue store rnow key = some c) (hr : c < 9223372036854775807) :
    redisIncr store rnow key =
      .ok (c + 1, redisPut store key
        { value := .counter (c + 1),
          expireAt := (redisLookup store rnow key).bind (fun e => e.expireAt) }) := by
  unfold bucketValue at hc
  unfold redisIncr
  cases hl : redisLookup store rnow key with
  | none =>
    rw [hl] at hc
    simp only [Option.some.injEq] at hc
    subst hc
    rfl
  | some e =>
    rw [hl] at hc
    simp only at hc
    have hn : ¬ c ≥ 9223372036854775807 := by omega
    simp only [hc, hn, if_false, Option.bind]

/-- One call of `allowRequest` with the store available, on a key whose live value
is the integer `c` (0 for an absent key). -/
theorem allowRequest_step (env : Env) (rnow : Int) (s : State) (key : String)
    (windowSec maxRequests c : Int) (hAvail : (getRedis env s).1 = true)
    (hc : bucketValue s.redis rnow key = some c) (hr : c < 9223372036854775807) :
    (allowRequest env rnow s key windowSec maxRequests).1 = .ok (decide (c + 1 ≤ maxRequests)) ∧
    redisRaw (allowRequest env rnow s key windowSec maxRequests).2.redis key =
      some { value := .counter (c + 1),
             expireAt := if c + 1 = 1 then some (rnow + windowSec * 1000)
               else (redisLookup s.redis rnow key).bind (fun e => e.expireAt) } ∧
    (allowRequest env rnow s key windowSec maxRequests).2.redisClient = true ∧
    (∀ k, k ≠ key →
      redisRaw (allowRequest env rnow s key windowSec maxRequests).2.redis k
        = redisRaw s.redis k) := by
  have hs1 : (getRedis env s).2.redis = s.redis := getRedis_redis env s
  have hcl : (getRedis env s).2.redisClient = true := getRedis_stable env s hAvail
  have hg : getRedis env s = (true, (getRedis env s).2) := by
    rw [← hAvail]
  have hi := redisIncr_of_value s.redis rnow key c hc hr
  have hlive : RedisEntry.live
      { value := .counter (c + 1),
        expireAt := (redisLookup s.redis rnow key).bind (fun e => e.expireAt) } rnow = true := by
    cases hl : redisLookup s.redis rnow key with
    | none => rfl
    | some e =>
      have := redisLookup_live s.redis rnow key e hl
      simpa [RedisEntry.live] using this
  unfold allowRequest
  rw [hg]
  simp only [hs1, hi]
  by_cases h1 : c + 1 = 1
  · simp only [h1, if_true]
    unfold redisExpire
    rw [h1] at hlive
    rw [redisLookup_put_same _ rnow key _ hlive]
    simp only [decide_eq_true_eq]
    refine ⟨trivial, redisRaw_put_same _ _ _, hcl, ?_⟩
    intro k hk
    rw [redisRaw_put_other _ key k _ hk, redisRaw_put_other _ key k _ hk]
  · simp only [h1, if_false]
    refine ⟨trivial, redisRaw_put_same _ _ _, hcl, ?_⟩
    intro k hk
    rw [redisRaw_put_other _ key k _ hk]

/-- Calls of `allowRequest` on a bucket that holds the count `k ≥ 1` and expires at
`E`, all made before `E`: the call number `i` (from 0) returns whether
`k + i + 1 ≤ maxRequests`. -/
theorem allowSeq_counting (env : Env) (key : String) (windowSec maxRequests : Int) :
    ∀ (times : List Int) (s : State) (k E : Int),
      (getRedis env s).1 = true → 1 ≤ k →
      redisRaw s.redis key = some { value := .counter k, expireAt := some E } →
      (∀ r ∈ times, r < E) →
      k + times.length ≤ 9223372036854775807 →
      ∀ i : Nat, i < times.length →
        (allowSeq env key windowSec maxRequests s times).1[i]?
          = some (.ok (decide (k + i + 1 ≤ maxRequests))) := by
  intro times
  induction times with
  | nil => intro s k E _ _ _ _ _ i hi; simp at hi
  | cons r rest ih =>
    intro s k E hAvail hk hRaw hBefore hBound i hi
    have hrE : r < E := hBefore r (by simp)
    have hlook : redisLookup s.redis r key = some { value := .counter k, expireAt := some E } := by
      rw [redisLookup_eq, hRaw]
      simp [RedisEntry.live, hrE]
    have hval : bucketValue s.redis r key = some k := by
      unfold bucketValue
      rw [hlook]
      rfl
    have hlen : (0 : Int) ≤ (rest.length : Int) := Int.natCast_nonneg _
    have hkM : k < 9223372036854775807 := by
      simp only [List.length_cons, Nat.cast_add, Nat.cast_one] at hBound
      omega
    obtain ⟨h1, h2, h3, _⟩ := allowRequest_step env r s key windowSec maxRequests k hAvail hval hkM
    have hk1 : ¬ (k + 1 = 1) := by omega
    rw [hlook] at h2
    simp only [hk1, if_false, Option.bind] at h2
    unfold allowSeq
    cases i with
    | zero =>
      simp only [List.getElem?_cons_zero, h1]
      simp
    | succ j =>
      simp only [List.getElem?_cons_succ]
      have hA : (getRedis env (allowRequest env r s key windowSec maxRequests).2).1 = true := by
        rw [getRedis_of_client env _ h3]
      have hj : j < rest.length := by
        simp only [List.length_cons] at hi
        omega
      have := ih (allowRequest env r s key windowSec maxRequests).2 (k + 1) E hA (by omega) h2
        (fun x hx => hBefore x (by simp [hx]))
        (by simp only [List.length_cons, Nat.cast_add, Nat.cast_one] at hBound; omega) j hj
      rw [this]
      have he : k + 1 + (j : Int) + 1 = k + ((j + 1 : Nat) : Int) + 1 := by
        push_cast; ring
      rw [he]

/-- A bucket that is absent at the first call: the call number `i` (from 0) among
calls made before the bucket expires returns whether `i + 1 ≤ maxRequests`. -/
theorem allowSeq_fresh (env : Env) (key : String) (windowSec maxRequests : Int)
    (s : State) (r1 : Int) (rest : List Int) (hAvail : (getRedis env s).1 = true)
    (hAbsent : redisLookup s.redis r1 key = none)
    (hBefore : ∀ r ∈ rest, r < r1 + windowSec * 1000)
    (hBound : ((r1 :: rest).length : Int) ≤ 9223372036854775807) :
    ∀ i : Nat, i < (r1 :: rest).length →
      (allowSeq env key windowSec maxRequests s (r1 :: rest)).1[i]?
        = some (.ok (decide ((i : Int) + 1 ≤ maxRequests))) := by
  intro i hi
  have hval : bucketValue s.redis r1 key = some 0 := by
    unfold bucketValue
    rw [hAbsent]
  obtain ⟨h1, h2, h3, _⟩ :=
    allowRequest_step env r1 s key windowSec maxRequests 0 hAvail hval (by decide)
  simp only [zero_add, if_true] at h2
  unfold allowSeq
  cases i with
  | zero =>
    simp only [List.getElem?_cons_zero, h1]
    simp
  | succ j =>
    simp only [List.getElem?_cons_succ]
    have hA : (getRedis env (allowRequest env r1 s key windowSec maxRequests).2).1 = true := by
      rw [getRedis_of_client env _ h3]
    have hj : j < rest.length := by
      simp only [List.length_cons] at hi
      omega
    have := allowSeq_counting env key windowSec maxRequests rest
      (allowRequest env r1 s key windowSec maxRequests).2 1 (r1 + windowSec * 1000) hA
      (le_refl _) h2 hBefore
      (by simp only [List.length_cons, Nat.cast_add, Nat.cast_one] at hBound; omega) j hj
    rw [this]
    have he : (1 : Int) + (j : Int) + 1 = ((j + 1 : Nat) : Int) + 1 := by
      push_cast; ring
    rw [he]

/-! ## The claims -/

/-- C1 (the code at the failing input): in Local mode with a static bearer
credential and a freshly loaded module, the call `type=user&login=cannabisusers`
at time 1000, whose upstream would answer 200 with `fakeUser`, throws at the
`require` of line 93: it returns status 500 with the body
`\x7berror: "Cannot find module './twitch-redis'..."\x7d`, issues no call and leaves
`CACHE` empty; the second call with identical parameters at time 2000 does the
same, so no call is ever served from the cache with status 200. -/
theorem C1_calls_end_at_require :
    (handler envLegacy (worldAt 1000 (.response 200 fakeUser)) State.initial evUser).response
      = { statusCode := 500, headers := [],
          body := JSON.stringify (.obj [("error",
            .str ("Cannot find module './twitch-redis'" ++ sampleRequireStack))]) } ∧
    (handler envLegacy (worldAt 1000 (.response 200 fakeUser)) State.initial evUser).fetches
      = [] ∧
    (handler envLegacy (worldAt 1000 (.response 200 fakeUser)) State.initial
      evUser).state.CACHE.length = 0 ∧
    (handler envLegacy (worldAt 2000 (.response 200 fakeUser))
      (handler envLegacy (worldAt 1000 (.response 200 fakeUser)) State.initial evUser).state
      evUser).response.statusCode = 500 ∧
    (handler envLegacy (worldAt 2000 (.response 200 fakeUser))
      (handler envLegacy (worldAt 1000 (.response 200 fakeUser)) State.initial evUser).state
      evUser).response.body ≠ JSON.stringify fakeUser ∧
    (handler envLegacy (worldAt 2000 (.response 200 fakeUser))
      (handler envLegacy (worldAt 1000 (.response 200 fakeUser)) State.initial evUser).state
      evUser).response.header "X-Cache" = none := by
  decide

/-- C2 (the code at the failing input): in Local mode with a static bearer
credential and a freshly loaded module, after a call for `user` whose upstream
would answer 200 with `fakeUser`, `CACHE` is still empty; the same request made
again while the upstream is unreachable returns status 500 with the body
`\x7berror: "Cannot find module './twitch-redis'..."\x7d`, not status 200 with
`fakeUser`, and without any upstream call. -/
theorem C2_no_stale_entry_to_serve :
    (handler envLegacy (worldAt 1000 (.response 200 fakeUser)) State.initial
      evUser).state.CACHE.length = 0 ∧
    (handler envLegacy (worldAt 2000 (.reject "network"))
      (handler envLegacy (worldAt 1000 (.response 200 fakeUser)) State.initial evUser).state
      evUser).response
      = { statusCode := 500, headers := [],
          body := JSON.stringify (.obj [("error",
            .str ("Cannot find module './twitch-redis'" ++ sampleRequireStack))]) } ∧
    (handler envLegacy (worldAt 2000 (.reject "network"))
      (handler envLegacy (worldAt 1000 (.response 200 fakeUser)) State.initial evUser).state
      evUser).response.body ≠ JSON.stringify fakeUser ∧
    (handler envLegacy (worldAt 2000 (.reject "network"))
      (handler envLegacy (worldAt 1000 (.response 200 fakeUser)) State.initial evUser).state
      evUser).fetches = [] := by
  decide

/-- C3 (the code at the failing input): in Local mode with a static bearer
credential, an empty cache and an empty rate window, the call
`type=user&login=cannabisusers` whose upstream would answer 200 with `fakeUser`
returns status 500, a body that is not the serialization of `fakeUser`, no
`X-Cache` header, and issues no upstream data call. -/
theorem C3_first_call_is_500 :
    validQuery evUser.query = true ∧
    credentialsReady envLegacy (worldAt 1000 (.response 200 fakeUser)) State.initial = true ∧
    (handler envLegacy (worldAt 1000 (.response 200 fakeUser)) State.initial
      evUser).response.statusCode = 500 ∧
    (handler envLegacy (worldAt 1000 (.response 200 fakeUser)) State.initial
      evUser).response.body ≠ JSON.stringify fakeUser ∧
    (handler envLegacy (worldAt 1000 (.response 200 fakeUser)) State.initial
      evUser).response.header "X-Cache" = none ∧
    dataCalls (handler envLegacy (worldAt 1000 (.response 200 fakeUser)) State.initial
      evUser).fetches = 0 := by
  decide

/-- C4: for every request and every state of cache, token and rate window, if the
client identifier is not configured, or neither a client secret nor a static bearer
credential is configured, the handler returns status 500, issues no call at all (so
no upstream data call) and leaves the state unchanged. -/
theorem C4_missing_credentials_500 (env : Env) (w : World) (s : State) (ev : Event)
    (h : truthyStr env.TWITCH_CLIENT_ID = false ∨
      (truthyStr env.TWITCH_CLIENT_SECRET = false ∧ truthyStr env.TWITCH_OAUTH = false)) :
    (handler env w s ev).response.statusCode = 500 ∧
    dataCalls (handler env w s ev).fetches = 0 ∧
    (handler env w s ev).fetches = [] ∧
    (handler env w s ev).state = s := by
  unfold handler handlerTry obtainToken getAppToken
  rcases h with h | ⟨h1, h2⟩
  · by_cases hs : truthyStr env.TWITCH_CLIENT_SECRET = true
    · simp [h, hs, errorResponse, dataCalls]
    · by_cases ho : truthyStr env.TWITCH_OAUTH = true
      · simp [h, hs, ho, errorResponse, dataCalls]
      · simp [h, hs, ho, errorResponse, dataCalls]
  · have hn : truthyStr none = false := rfl
    simp [h1, h2, hn, errorResponse, dataCalls]

theorem C4_missing_credentials_500_witness :
    (handler envNone (worldAt 1000 (.response 200 fakeUser)) stateUserCached evUser).response.statusCode
      = 500 ∧
    dataCalls (handler envNone (worldAt 1000 (.response 200 fakeUser)) stateUserCached evUser).fetches
      = 0 ∧
    (handler envNone (worldAt 1000 (.response 200 fakeUser)) stateUserCached evUser).fetches = [] ∧
    (handler envNone (worldAt 1000 (.response 200 fakeUser)) stateUserCached evUser).state
      = stateUserCached :=
  C4_missing_credentials_500 envNone (worldAt 1000 (.response 200 fakeUser)) stateUserCached evUser
    (Or.inl (by decide))

/-- C5 (counterexample): client id and client secret are configured, no token is
stored and the token exchange meets a transport error; the request `type=user`
without `login` gets status 500, not 400. -/
theorem C5_counterexample :
    truthyStr envSecret.TWITCH_CLIENT_ID = true ∧
    truthyStr envSecret.TWITCH_CLIENT_SECRET = true ∧
    evUserNoLogin.query.type = some "user" ∧
    truthyStr evUserNoLogin.query.login = false ∧
    (handler envSecret (tokenWorld 5000 (.reject "network")) State.initial
      evUserNoLogin).response.statusCode = 500 ∧
    (handler envSecret (tokenWorld 5000 (.reject "network")) State.initial
      evUserNoLogin).response.statusCode ≠ 400 := by
  decide

/-- C5 (amended): when the credentials test of line 55 is passed, that is when the
client id is set and the token step of this call (static bearer, stored app token
or successful exchange) yields a non-empty token, a request of type `user`,
`videos` or `clips` whose required parameter (`login`, `user_id`, `broadcaster_id`) is absent or empty gets
status 400 with the body `\x7berror: "missing <param>"\x7d` naming that parameter;
every other value of `type`, an absent `type` included, gets status 400; in all
these cases no upstream data call is made. -/
theorem C5_request_validation (env : Env) (w : World) (s : State) (ev : Event)
    (hCred : credentialsReady env w s = true) :
    (ev.query.type = some "user" → truthyStr ev.query.login = false →
      (handler env w s ev).response.statusCode = 400 ∧
      (handler env w s ev).response.body
        = JSON.stringify (.obj [("error", .str "missing login")]) ∧
      dataCalls (handler env w s ev).fetches = 0) ∧
    (ev.query.type = some "videos" → truthyStr ev.query.user_id = false →
      (handler env w s ev).response.statusCode = 400 ∧
      (handler env w s ev).response.body
        = JSON.stringify (.obj [("error", .str "missing user_id")]) ∧
      dataCalls (handler env w s ev).fetches = 0) ∧
    (ev.query.type = some "clips" → truthyStr ev.query.broadcaster_id = false →
      (handler env w s ev).response.statusCode = 400 ∧
      (handler env w s ev).response.body
        = JSON.stringify (.obj [("error", .str "missing broadcaster_id")]) ∧
      dataCalls (handler env w s ev).fetches = 0) ∧
    (ev.query.type ≠ some "user" → ev.query.type ≠ some "videos" →
      ev.query.type ≠ some "clips" →
      (handler env w s ev).response.statusCode = 400 ∧
      dataCalls (handler env w s ev).fetches = 0) := by
  have h0 : dataCalls (tokenCalls env w s) = 0 := (obtainToken_frame env w s).2.2
  refine ⟨?_, ?_, ?_, ?_⟩
  · intro ht hp
    have hr : route ev.query = .error (errorResponse 400 "missing login") := by
      unfold route; simp [ht, hp]
    rw [handler_invalid env w s ev _ hCred hr]
    exact ⟨rfl, rfl, h0⟩
  · intro ht hp
    have hr : route ev.query = .error (errorResponse 400 "missing user_id") := by
      unfold route; simp [ht, hp]
    rw [handler_invalid env w s ev _ hCred hr]
    exact ⟨rfl, rfl, h0⟩
  · intro ht hp
    have hr : route ev.query = .error (errorResponse 400 "missing broadcaster_id") := by
      unfold route; simp [ht, hp]
    rw [handler_invalid env w s ev _ hCred hr]
    exact ⟨rfl, rfl, h0⟩
  · intro h1 h2 h3
    have hr : route ev.query = .error (errorResponse 400 "missing or invalid type parameter") := by
      unfold route; simp [h1, h2, h3]
    rw [handler_invalid env w s ev _ hCred hr]
    exact ⟨rfl, h0⟩

theorem C5_request_validation_witness :
    (handler envLegacy (worldAt 1000 (.response 200 fakeUser)) State.initial evUserNoLogin).response.statusCode
      = 400 ∧
    (handler envLegacy (worldAt 1000 (.response 200 fakeUser)) State.initial evUserNoLogin).response.body
      = JSON.stringify (.obj [("error", .str "missing login")]) ∧
    dataCalls
      (handler envLegacy (worldAt 1000 (.response 200 fakeUser)) State.initial evUserNoLogin).fetches
      = 0 :=
  (C5_request_validation envLegacy (worldAt 1000 (.response 200 fakeUser)) State.initial evUserNoLogin
    (by decide)).1 (by decide) (by decide)

/-- C6 (the code at the failing input): for the request
`type=clips&broadcaster_id=b/1` the URL computed at line 82 is
`https://api.twitch.tv/helix/clips?broadcaster_id=b%2F1&first=6` with a TTL of 300
seconds, but in Local mode with a static bearer credential, room in the budget and
an upstream that would answer 200, the handler requests no URL and stores no
entry: it returns status 500, the list of calls is empty and `CACHE` stays
empty. -/
theorem C6_url_computed_never_used :
    route evClips.query
      = .ok ("https://api.twitch.tv/helix/clips?broadcaster_id=b%2F1&first=6", 300) ∧
    (handler envLegacy (worldAt 7000 (.response 200 fakeUser)) State.initial
      evClips).response.statusCode = 500 ∧
    (handler envLegacy (worldAt 7000 (.response 200 fakeUser)) State.initial
      evClips).fetches = [] ∧
    (handler envLegacy (worldAt 7000 (.response 200 fakeUser)) State.initial
      evClips).state.CACHE.length = 0 :=
  ⟨rfl, by decide, by decide, by decide⟩

/-- C7 (the code at the failing input): in Local mode, after 120 calls for `videos`
at times 1000 to 1119, no timestamp is recorded and `CACHE` is empty; the 121st
call, at time 2000 inside the same 60-second window, returns status 500 with the
body `\x7berror: "Cannot find module './twitch-redis'..."\x7d`, not 429. -/
theorem C7_121st_call_is_500 :
    (failingCalls 120 State.initial).requestTimestamps = [] ∧
    (failingCalls 120 State.initial).CACHE.length = 0 ∧
    (handler envLegacy (worldAt 2000 (.response 500 upstreamError)) (failingCalls 120 State.initial)
      evVideos).response
      = { statusCode := 500, headers := [],
          body := JSON.stringify (.obj [("error",
            .str ("Cannot find module './twitch-redis'" ++ sampleRequireStack))]) } ∧
    (handler envLegacy (worldAt 2000 (.response 500 upstreamError)) (failingCalls 120 State.initial)
      evVideos).response.statusCode ≠ 429 ∧
    (handler envLegacy (worldAt 2000 (.response 500 upstreamError)) (failingCalls 120 State.initial)
      evVideos).fetches = [] := by
  set_option maxRecDepth 100000 in decide

/-- C8 (the code at the failing input): in Local mode with a static bearer
credential, an empty cache and an empty rate window, the request
`type=clips&broadcaster_id=b/1` whose upstream would answer 404 with the body
`upstreamError` is never sent: the handler issues no call and returns status 500
with the body `\x7berror: "Cannot find module './twitch-redis'..."\x7d`, neither
the upstream status nor the upstream body. -/
theorem C8_upstream_never_asked :
    (handler envLegacy (worldAt 2000 (.response 404 upstreamError)) State.initial
      evClips).response
      = { statusCode := 500, headers := [],
          body := JSON.stringify (.obj [("error",
            .str ("Cannot find module './twitch-redis'" ++ sampleRequireStack))]) } ∧
    (handler envLegacy (worldAt 2000 (.response 404 upstreamError)) State.initial
      evClips).fetches = [] ∧
    (handler envLegacy (worldAt 2000 (.response 404 upstreamError)) State.initial
      evClips).response.statusCode ≠ 404 ∧
    (handler envLegacy (worldAt 2000 (.response 404 upstreamError)) State.initial
      evClips).response.body ≠ JSON.stringify upstreamError := by
  decide

/-- C9 (counterexample): with client id and secret configured and no stored token,
a successful exchange that returns `expires_in = 0`, read at time 1000, stores the
expiry 1000 + 50 minutes and not 1000 + (0 - 30) * 1000. -/
theorem C9_counterexample :
    (getAppToken envSecret (tokenWorld 1000 (.ok (some "apptoken") (some 0)))
      State.initial).2.1.APP_TOKEN_EXPIRY = 1000 + 50 * 60 * 1000 ∧
    (getAppToken envSecret (tokenWorld 1000 (.ok (some "apptoken") (some 0)))
      State.initial).2.1.APP_TOKEN_EXPIRY ≠ 1000 + (0 - 30) * 1000 := by
  decide

/-- C9 (amended): with client id and client secret configured, after an exchange
that was due and returned a non-empty token `tok` with `expires_in = e`, the expiry
being read at time `t = w.tokenNow2`: the token `tok` is returned and stored; the
stored expiry is `t + (e - 30) * 1000` for every non-zero `e`, and `t + 50` minutes
when `expires_in` is omitted or 0; every later call whose clock reading is strictly
before the stored expiry returns `tok`, performs no exchange and leaves the state
unchanged; a later call whose clock reading is at or after the stored expiry
performs exactly one new exchange, and when that exchange succeeds it replaces
token and expiry together, while a failed one leaves both as they were. -/
theorem C9_token_lifecycle (env : Env) (w : World) (s : State) (tok : String) (e : Option Int)
    (hId : truthyStr env.TWITCH_CLIENT_ID = true)
    (hSec : truthyStr env.TWITCH_CLIENT_SECRET = true)
    (hDue : ¬ (truthyStr s.APP_TOKEN = true ∧ s.APP_TOKEN_EXPIRY > w.tokenNow1))
    (hFetch : w.tokenFetch = .ok (some tok) e) (hTok : tok ≠ "") :
    (getAppToken env w s).1 = .ok (some tok) ∧
    (getAppToken env w s).2.1.APP_TOKEN = some tok ∧
    (∀ n : Int, e = some n → n ≠ 0 →
      (getAppToken env w s).2.1.APP_TOKEN_EXPIRY = w.tokenNow2 + (n - 30) * 1000) ∧
    (e = none ∨ e = some 0 →
      (getAppToken env w s).2.1.APP_TOKEN_EXPIRY = w.tokenNow2 + 50 * 60 * 1000) ∧
    (∀ w2 : World, w2.tokenNow1 < (getAppToken env w s).2.1.APP_TOKEN_EXPIRY →
      getAppToken env w2 (getAppToken env w s).2.1
        = (.ok (some tok), (getAppToken env w s).2.1, [])) ∧
    (∀ w2 : World, (getAppToken env w s).2.1.APP_TOKEN_EXPIRY ≤ w2.tokenNow1 →
      (getAppToken env w2 (getAppToken env w s).2.1).2.2
        = [FetchCall.tokenExchange "https://id.twitch.tv/oauth2/token"
            ("client_id=" ++ encodeURIComponent (strOf env.TWITCH_CLIENT_ID) ++
              "&client_secret=" ++ encodeURIComponent (strOf env.TWITCH_CLIENT_SECRET) ++
              "&grant_type=client_credentials")] ∧
      (∀ tok2 e2, w2.tokenFetch = .ok tok2 e2 →
        (getAppToken env w2 (getAppToken env w s).2.1).1 = .ok tok2 ∧
        (getAppToken env w2 (getAppToken env w s).2.1).2.1.APP_TOKEN = tok2 ∧
        (getAppToken env w2 (getAppToken env w s).2.1).2.1.APP_TOKEN_EXPIRY
          = w2.tokenNow2 + tokenLifetimeMs e2) ∧
      ((∀ tok2 e2, w2.tokenFetch ≠ .ok tok2 e2) →
        (getAppToken env w2 (getAppToken env w s).2.1).2.1 = (getAppToken env w s).2.1)) := by
  have h1 : getAppToken env w s =
      (.ok (some tok),
       { s with APP_TOKEN := some tok, APP_TOKEN_EXPIRY := w.tokenNow2 + tokenLifetimeMs e },
       [(fetchAppAccessToken (strOf env.TWITCH_CLIENT_ID) (strOf env.TWITCH_CLIENT_SECRET) w).2]) := by
    rw [getAppToken_of_due env w s hId hSec hDue]
    unfold fetchAppAccessToken
    simp only [hFetch]
  have hT : truthyStr (some tok) = true := by simp [truthyStr, hTok]
  rw [h1]
  refine ⟨rfl, rfl, ?_, ?_, ?_, ?_⟩
  · intro n hn hn0
    simp [hn, tokenLifetimeMs, hn0]
  · intro hn
    rcases hn with hn | hn <;> simp [hn, tokenLifetimeMs]
  · intro w2 hlt
    simp only at hlt
    unfold getAppToken
    have hd : decide (w.tokenNow2 + tokenLifetimeMs e > w2.tokenNow1) = true := by
      simpa using hlt
    simp only [hId, hSec, Bool.not_true, Bool.or_self, Bool.false_eq_true, if_false, hT, hd,
      Bool.and_self, if_true]
  · intro w2 hge
    simp only at hge
    have hDue2 : ¬ (truthyStr (some tok) = true ∧
        w.tokenNow2 + tokenLifetimeMs e > w2.tokenNow1) := by
      intro h; omega
    have h2 := getAppToken_of_due env w2
      { s with APP_TOKEN := some tok, APP_TOKEN_EXPIRY := w.tokenNow2 + tokenLifetimeMs e }
      hId hSec hDue2
    have hcall := fetchAppAccessToken_call (strOf env.TWITCH_CLIENT_ID)
      (strOf env.TWITCH_CLIENT_SECRET) w2
    rw [h2]
    refine ⟨?_, ?_, ?_⟩
    · rw [← hcall]
      rcases fetchAppAccessToken (strOf env.TWITCH_CLIENT_ID) (strOf env.TWITCH_CLIENT_SECRET) w2
        with ⟨r, call⟩
      cases r <;> rfl
    · intro tok2 e2 hf
      unfold fetchAppAccessToken
      simp only [hf]
      exact ⟨trivial, trivial, trivial⟩
    · intro hne
      unfold fetchAppAccessToken
      cases hf : w2.tokenFetch with
      | reject msg => rfl
      | notOk body => rfl
      | ok a b => exact absurd hf (hne a b)

theorem C9_token_lifecycle_witness :
    (getAppToken envSecret (tokenWorld 1000 (.ok (some "apptoken") (some 3600)))
      State.initial).2.1.APP_TOKEN_EXPIRY = 1000 + (3600 - 30) * 1000 ∧
    getAppToken envSecret (tokenWorld 2000 (.reject "unused"))
      (getAppToken envSecret (tokenWorld 1000 (.ok (some "apptoken") (some 3600)))
        State.initial).2.1
      = (.ok (some "apptoken"),
         (getAppToken envSecret (tokenWorld 1000 (.ok (some "apptoken") (some 3600)))
           State.initial).2.1, []) :=
  ⟨(C9_token_lifecycle envSecret (tokenWorld 1000 (.ok (some "apptoken") (some 3600)))
      State.initial "apptoken" (some 3600) (by decide) (by decide) (by decide) rfl
      (by decide)).2.2.1 3600 rfl (by decide),
   (C9_token_lifecycle envSecret (tokenWorld 1000 (.ok (some "apptoken") (some 3600)))
      State.initial "apptoken" (some 3600) (by decide) (by decide) (by decide) rfl
      (by decide)).2.2.2.2.1 (tokenWorld 2000 (.reject "unused")) (by decide)⟩

/-- C10: in the client-secret flow, for every request and every state the module
can be in, if the token exchange is due and fails with message `msg` (a non-OK
response from the identity endpoint, or a transport error), the handler returns
status 500 with the body `\x7berror: msg\x7d` and no header, serves no cached
payload, issues no upstream data call and leaves the state unchanged. -/
theorem C10_token_failure_is_fatal (env : Env) (w : World) (s : State) (ev : Event)
    (msg : String) (hReach : Reachable s)
    (hId : truthyStr env.TWITCH_CLIENT_ID = true)
    (hSec : truthyStr env.TWITCH_CLIENT_SECRET = true)
    (hDue : ¬ (truthyStr s.APP_TOKEN = true ∧ s.APP_TOKEN_EXPIRY > w.tokenNow1))
    (hFail : (fetchAppAccessToken (strOf env.TWITCH_CLIENT_ID)
      (strOf env.TWITCH_CLIENT_SECRET) w).1 = .error msg) :
    (handler env w s ev).response.statusCode = 500 ∧
    (handler env w s ev).response.statusCode ≠ 200 ∧
    (handler env w s ev).response.body = JSON.stringify (.obj [("error", .str msg)]) ∧
    (handler env w s ev).response.headers = [] ∧
    dataCalls (handler env w s ev).fetches = 0 ∧
    (handler env w s ev).state = s := by
  have hcall := fetchAppAccessToken_call (strOf env.TWITCH_CLIENT_ID)
    (strOf env.TWITCH_CLIENT_SECRET) w
  have hg : getAppToken env w s =
      (.error msg, s,
       [FetchCall.tokenExchange "https://id.twitch.tv/oauth2/token"
        ("client_id=" ++ encodeURIComponent (strOf env.TWITCH_CLIENT_ID) ++ "&client_secret=" ++
          encodeURIComponent (strOf env.TWITCH_CLIENT_SECRET) ++
          "&grant_type=client_credentials")]) := by
    rw [getAppToken_of_due env w s hId hSec hDue, ← hcall]
    rcases hf : fetchAppAccessToken (strOf env.TWITCH_CLIENT_ID)
      (strOf env.TWITCH_CLIENT_SECRET) w with ⟨r, call⟩
    rw [hf] at hFail
    simp only at hFail
    rw [hFail]
  have hh : handler env w s ev =
      { response := handlerCatch msg s, state := s,
        fetches := [FetchCall.tokenExchange "https://id.twitch.tv/oauth2/token"
          ("client_id=" ++ encodeURIComponent (strOf env.TWITCH_CLIENT_ID) ++ "&client_secret=" ++
            encodeURIComponent (strOf env.TWITCH_CLIENT_SECRET) ++
            "&grant_type=client_credentials")] } := by
    unfold handler handlerTry obtainToken
    simp only [hSec, if_true, hg]
  have hE : s.CACHE = [] := (reachable_empty s hReach).1
  rw [hh]
  unfold handlerCatch
  simp [hE, errorResponse, dataCalls, FetchCall.isData]

theorem C10_token_failure_is_fatal_witness :
    (handler envSecret (tokenWorld 5000 (.notOk upstreamError))
      (handler envLegacy (worldAt 1000 (.response 200 fakeUser)) State.initial evUser).state
      evUser).response.statusCode = 500 ∧
    (handler envSecret (tokenWorld 5000 (.notOk upstreamError))
      (handler envLegacy (worldAt 1000 (.response 200 fakeUser)) State.initial evUser).state
      evUser).response.body
      = JSON.stringify (.obj [("error",
          .str ("token endpoint error: " ++ JSON.stringify upstreamError))]) :=
  ⟨(C10_token_failure_is_fatal envSecret (tokenWorld 5000 (.notOk upstreamError))
      (handler envLegacy (worldAt 1000 (.response 200 fakeUser)) State.initial evUser).state
      evUser ("token endpoint error: " ++ JSON.stringify upstreamError)
      (Reachable.call envLegacy (worldAt 1000 (.response 200 fakeUser)) State.initial evUser
        Reachable.initial)
      (by decide) (by decide) (by decide) rfl).1,
   (C10_token_failure_is_fatal envSecret (tokenWorld 5000 (.notOk upstreamError))
      (handler envLegacy (worldAt 1000 (.response 200 fakeUser)) State.initial evUser).state
      evUser ("token endpoint error: " ++ JSON.stringify upstreamError)
      (Reachable.call envLegacy (worldAt 1000 (.response 200 fakeUser)) State.initial evUser
        Reachable.initial)
      (by decide) (by decide) (by decide) rfl).2.2.1⟩

/-- C11 (the code at the failing input): in Local mode with a static bearer
credential and a freshly loaded module, the call `type=user&login=cannabisusers`
at time 1000 finds no recorded timestamp after pruning, fewer than 120, so it is
an allowed call; it throws at the `require` of line 93, before the push of line
143: afterwards the recorded list is still empty, not `[1000]`, and no upstream
data call was issued. -/
theorem C11_allowed_call_appends_nothing :
    credentialsReady envLegacy (worldAt 1000 (.response 200 fakeUser)) State.initial = true ∧
    validQuery evUser.query = true ∧
    (pruned 1000 State.initial.requestTimestamps).length < RATE_max ∧
    (handler envLegacy (worldAt 1000 (.response 200 fakeUser)) State.initial
      evUser).state.requestTimestamps = [] ∧
    (handler envLegacy (worldAt 1000 (.response 200 fakeUser)) State.initial
      evUser).state.requestTimestamps ≠ [1000] ∧
    dataCalls (handler envLegacy (worldAt 1000 (.response 200 fakeUser)) State.initial
      evUser).fetches = 0 := by
  decide

/-- C12 (the code, with the failing input of its last part):
`allowRequest(key, windowSec, maxRequests)` with the store available, on a bucket
whose live value is the integer `c` (0 when the key is absent or expired) below
the 64-bit limit of `INCR`: every call, allowed or denied, leaves the counter
`c + 1` at the key, sets the key's expiry to `windowSec` seconds from the server
time exactly when the new count is 1 and keeps the old expiry otherwise, and
returns true if and only if `c + 1 ≤ maxRequests`. Hence for a bucket that is
absent at the first call, the call number `i` (from 0) among calls made before the
bucket expires returns true if and only if `i + 1 ≤ maxRequests`; with window 60 and
maximum 2, calls at 0 s, 1 s, 59.999 s and 60 s return true, true, false, true.
Line 104 composes the key `twitch:rl:<floor(t / 60000)>:<type>`: for `t = 125000`
and `user` it is `twitch:rl:2:user`. But the handler never reaches that line: in
Redis mode with client credentials, the call `type=user&login=cannabisusers` at
time 125000 throws at the `require` of line 93 after the token exchange, returns
status 500, writes no key to Redis and issues no upstream data call. -/
theorem C12_limiter_never_consulted :
    (∀ (env : Env) (key : String) (windowSec maxRequests rnow : Int) (s : State) (c : Int),
      (getRedis env s).1 = true → bucketValue s.redis rnow key = some c →
      c < 9223372036854775807 →
      (allowRequest env rnow s key windowSec maxRequests).1
        = .ok (decide (c + 1 ≤ maxRequests)) ∧
      redisRaw (allowRequest env rnow s key windowSec maxRequests).2.redis key =
        some { value := .counter (c + 1),
               expireAt := if c + 1 = 1 then some (rnow + windowSec * 1000)
                 else (redisLookup s.redis rnow key).bind (fun e => e.expireAt) }) ∧
    (∀ (env : Env) (key : String) (windowSec maxRequests : Int) (s : State) (r1 : Int)
      (rest : List Int),
      (getRedis env s).1 = true → redisLookup s.redis r1 key = none →
      (∀ r ∈ rest, r < r1 + windowSec * 1000) →
      ((r1 :: rest).length : Int) ≤ 9223372036854775807 →
      ∀ i : Nat, i < (r1 :: rest).length →
        (allowSeq env key windowSec maxRequests s (r1 :: rest)).1[i]?
          = some (.ok (decide ((i : Int) + 1 ≤ maxRequests)))) ∧
    (allowSeq envRedis "twitch:rl:2:user" 60 2 State.initial [0, 1000, 59999, 60000]).1
      = [.ok true, .ok true, .ok false, .ok true] ∧
    rlKey 125000 "user" = "twitch:rl:2:user" ∧
    rlKey 119999 "videos" = "twitch:rl:1:videos" ∧
    (handler envRedis (worldAt 125000 (.response 200 fakeUser)) State.initial
      evUser).response.statusCode = 500 ∧
    (handler envRedis (worldAt 125000 (.response 200 fakeUser)) State.initial
      evUser).state.redis.length = 0 ∧
    dataCalls (handler envRedis (worldAt 125000 (.response 200 fakeUser)) State.initial
      evUser).fetches = 0 := by
  refine ⟨?_, ?_, rfl, by decide, by decide, by decide, by decide, by decide⟩
  · intro env key windowSec maxRequests rnow s c hAvail hc hr
    obtain ⟨h1, h2, _, _⟩ :=
      allowRequest_step env rnow s key windowSec maxRequests c hAvail hc hr
    exact ⟨h1, h2⟩
  · intro env key windowSec maxRequests s r1 rest hAvail hAbsent hBefore hBound
    exact allowSeq_fresh env key windowSec maxRequests s r1 rest hAvail hAbsent hBefore hBound

end Twitch
